import Mathlib

set_option maxRecDepth 100000

/-
Verification development for the TEMA Flange Bolt BCD Calculator.

The engine lives in src/App.tsx (helpers `toMpa`, `toCelsius`,
`interpolateStress`, the big `calculateFullResults` callback, the
`pccStatusInfo` memo and `performSearch`), with two display-side
recomputations in src/components/BoltLoadTable.tsx (the PCC-1 block and the
"Stress Within Limit" badge) and src/components/Calculator.tsx (the gasket
ring lookup).

Shallow-embedding conventions used throughout this file:
  * JavaScript numbers are modelled by ℚ.  `Math.PI` is modelled by `jsPi`,
    the exact rational value of the IEEE-754 double `Math.PI`.
  * `Math.sqrt` cannot be represented exactly in ℚ, so it is an explicit
    parameter of the environment (`Env.sqrt`); no theorem below depends on
    its values.
  * Divisions whose denominator can be zero in the source are modelled with
    `jsDiv`, which returns a `JSNum` reproducing JavaScript's
    `Infinity` / `-Infinity` / `NaN` results; divisions whose denominator is
    provably nonzero on the paths of interest use ordinary ℚ division.
  * The reference tables imported from `./constants` (not part of the
    engine's logic; the spec treats them as supplied read-only data) are
    parameters, bundled in `Env`, together with the fixed temperature steps
    `BOLT_TEMP_STEPS` and the `WHC_MAX_PITCH_TABLE` keyed lookup.
  * JavaScript truthiness defaults (`x || d`) are modelled by
    `if x = 0 then d else x` (for numbers) and `jsOrOpt` (for possibly
    missing lookups), matching `0`, `null` and `undefined` being falsy.
  * The facing-sketch string is modelled as `List Char`; `startsWith` is
    `List.isPrefixOf`.
-/

/-- Exact rational value of the IEEE-754 double `Math.PI`. -/
def jsPi : ℚ := 884279719003555 / 281474976710656

/-- A JavaScript number that may be infinite or NaN: the result type of a
division whose denominator can be zero. -/
inductive JSNum where
  | num (q : ℚ)
  | posInf
  | negInf
  | nan
deriving DecidableEq

/-- JavaScript division `a / b` on reals: finite quotient when `b ≠ 0`,
signed infinity for `a ≠ 0, b = 0`, and NaN for `0 / 0`. -/
def jsDiv (a b : ℚ) : JSNum :=
  if b = 0 then (if 0 < a then .posInf else if a < 0 then .negInf else .nan)
  else .num (a / b)

/-- Multiplication of a JavaScript number by the positive literal `100`
(used by the search's `margin` percentage). -/
def JSNum.mul100 : JSNum → JSNum
  | .num q => .num (q * 100)
  | .posInf => .posInf
  | .negInf => .negInf
  | .nan => .nan

/-- JavaScript comparison `x >= 0`: false for NaN, true for `Infinity`. -/
def JSNum.ge0 : JSNum → Bool
  | .num q => decide (0 ≤ q)
  | .posInf => true
  | .negInf => false
  | .nan => false

/-- JavaScript `Math.max` on two values: NaN-propagating. -/
def jsMax : JSNum → JSNum → JSNum
  | .nan, _ => .nan
  | _, .nan => .nan
  | .posInf, _ => .posInf
  | _, .posInf => .posInf
  | .negInf, y => y
  | x, .negInf => x
  | .num a, .num b => .num (max a b)

/-- JavaScript `x || d` for an optional numeric lookup: the default is used
when the lookup is missing (`undefined`) or its value is `0` (falsy). -/
def jsOrOpt (x : Option ℚ) (d : ℚ) : ℚ :=
  match x with
  | some v => if v = 0 then d else v
  | none => d

/-- One row of `TEMA_BOLT_DATA` (fields the engine reads). -/
structure BoltData where
  size : ℚ
  B_min : ℚ
  R : ℚ
  E : ℚ
  holeSize : ℚ
  tensileArea : ℚ
deriving DecidableEq

/-- One row of `HYDRAULIC_TENSIONING_DATA`. -/
structure TensionData where
  size : ℚ
  B_ten : ℚ
deriving DecidableEq

/-- One row of `GASKET_RING_TABLE`: a shell-ID range with minimum ring widths. -/
structure RingRow where
  min : ℚ
  max : ℚ
  irMin : ℚ
  orMin : ℚ
deriving DecidableEq

/-- One row of `ASME_BOLT_MATERIALS`: an id together with the
stress-vs-temperature curve over the shared temperature steps (entries may
be `null`). -/
structure MaterialRow where
  id : String
  stresses : List (Option ℚ)
deriving DecidableEq

/-- One row of `GASKET_TYPES`: gasket factor `m` and seating stress `y` (psi). -/
structure GasketTypeRow where
  id : String
  m : ℚ
  y : ℚ
deriving DecidableEq

/-- The reference tables supplied to the engine, plus the two numeric
primitives that cannot live in ℚ (see the header comment). -/
structure Env where
  boltTable : List BoltData
  tensionTable : List TensionData
  ringTable : List RingRow
  boltMaterials : List MaterialRow
  gasketTypes : List GasketTypeRow
  tempSteps : List ℚ
  whcMaxPitch : ℚ → Option ℚ
  sqrt : ℚ → ℚ

/-- The Design Input record (`FlangeInputs` in src/types); every field the
engine or the search reads or writes. -/
structure FlangeInputs where
  itemNo : String
  partName : String
  boltSize : ℚ
  boltCount : ℚ
  insideDia : ℚ
  g0 : ℚ
  g1 : ℚ
  cClearance : ℚ
  shellGapA : ℚ
  gasketSeatingWidth : ℚ
  hasInnerRing : Bool
  hasOuterRing : Bool
  innerRingWidthManual : ℚ
  outerRingWidthManual : ℚ
  useManualOverride : Bool
  actualBCD : ℚ
  actualOD : ℚ
  manualSeatingID : ℚ
  manualSeatingOD : ℚ
  manualM : ℚ
  manualY : ℚ
  manualPassM : ℚ
  manualPassY : ℚ
  designTemp : ℚ
  tempUnit : String
  designPressure : ℚ
  pressureUnit : String
  shellMaterial : String
  jointEfficiency : ℚ
  corrosionAllowance : ℚ
  boltMaterial : String
  passPartitionLength : ℚ
  passPartitionWidth : ℚ
  gasketType : String
  passGasketType : String
  facingSketch : List Char
  useHydraulicTensioning : Bool
  usePcc1Check : Bool
  sgT : ℚ
  sgMinS : ℚ
  sgMinO : ℚ
  sgMax : ℚ
  sbMax : ℚ
  sbMin : ℚ
  sfMax : ℚ
  phiFMax : ℚ
  phiGMax : ℚ
  g : ℚ
  passPartAreaReduction : ℚ
deriving DecidableEq

/-- The Calculation Result record returned by `calculateFullResults`
(src/App.tsx lines 241-257), extended with the two required-area locals of
lines 237-238 (`reqAreaOperating`, `reqAreaSeating`), which are exposed here
as `JSNum` because their denominators can be zero. -/
structure CalculationResults where
  bcdMethod1 : ℚ
  bcdMethod2 : ℚ
  bcdMethod3 : ℚ
  selectedBcdSource : ℕ
  bcdTema : ℚ
  odTema : ℚ
  boltSpacingMin : ℚ
  maxBoltSpacing : ℚ
  geometricPitch : ℚ
  actualBoltSpacing : ℚ
  spacingOk : Bool
  radialDistance : ℚ
  edgeDistance : ℚ
  effectiveC : ℚ
  shellGapA : ℚ
  gasketSeatingWidth : ℚ
  innerRingWidth : ℚ
  outerRingWidth : ℚ
  gasketID : ℚ
  seatingID : ℚ
  seatingOD : ℚ
  gasketOD : ℚ
  finalBCD : ℚ
  finalOD : ℚ
  maxRaisedFace : ℚ
  boltHoleSize : ℚ
  singleBoltArea : ℚ
  totalBoltArea : ℚ
  reqAreaOperating : JSNum
  reqAreaSeating : JSNum
  requiredBoltArea : JSNum
  totalBoltLoadAmbient : ℚ
  totalBoltLoadDesign : ℚ
  ambientAllowableStress : ℚ
  designAllowableStress : ℚ
  gasketM : ℚ
  gasketY : ℚ
  passM : ℚ
  passY : ℚ
  wm1 : ℚ
  wm2 : ℚ
  hForce : ℚ
  hpForce : ℚ
  gMeanDia : ℚ
  bWidth : ℚ
  b0Width : ℚ
  nWidth : ℚ

/-- Pressure → MPa (src/App.tsx lines 31-38); unrecognized unit tags fall
through to identity. -/
def toMpa (p : ℚ) (unit : String) : ℚ :=
  if unit = "Bar" then p * 0.1
  else if unit = "PSI" then p * 0.00689476
  else if unit = "kg/cm²" then p * 0.0980665
  else p

/-- Temperature → Celsius (src/App.tsx lines 40-46). -/
def toCelsius (t : ℚ) (unit : String) : ℚ :=
  if unit = "°F" then (t - 32) * 5 / 9
  else if unit = "K" then t - 273.15
  else t

/-- `stressCurve.map(s => s || 0)` of src/App.tsx line 49: null entries
become zero. -/
def cleanCurveOf (curve : List (Option ℚ)) : List ℚ :=
  curve.map (fun s => s.getD 0)

/-- The bracket-scanning loop of `interpolateStress` (src/App.tsx lines
53-61), walking the temperature steps and the cleaned curve in lockstep.
`rest.headD 0 = 0` reproduces `cleanCurve[i + 1] || s1`: a zero (or
missing) upper value falls back to `s1`. -/
def interpLoop (temp : ℚ) : List ℚ → List ℚ → Option ℚ
  | t1 :: t2 :: ts, s1 :: rest =>
      if t1 ≤ temp ∧ temp ≤ t2 then
        some (s1 + ((if rest.headD 0 = 0 then s1 else rest.headD 0) - s1) * (temp - t1) / (t2 - t1))
      else interpLoop temp (t2 :: ts) rest
  | _, _ => none

/-- `interpolateStress` (src/App.tsx lines 48-63), with the global
`BOLT_TEMP_STEPS` made an explicit `steps` parameter.  The final
`cleanCurve[0]` fallback of line 62 is unreachable when `temp` is strictly
between the first and last step. -/
def interpolateStress (temp : ℚ) (steps : List ℚ) (curve : List (Option ℚ)) : ℚ :=
  let cleanCurve := cleanCurveOf curve
  if temp ≤ steps.headD 0 then cleanCurve.headD 0
  else if steps.getLastD 0 ≤ temp then cleanCurve.getLastD 0
  else (interpLoop temp steps cleanCurve).getD (cleanCurve.headD 0)

def defaultBoltData : BoltData := ⟨0, 0, 0, 0, 0, 0⟩

def defaultRingRow : RingRow := ⟨0, 0, 0, 0⟩

def defaultMaterialRow : MaterialRow := ⟨"", []⟩

def defaultGasketTypeRow : GasketTypeRow := ⟨"", 0, 0⟩

/-- `TEMA_BOLT_DATA.find(b => b.size === size) || TEMA_BOLT_DATA[0]`
(src/App.tsx line 154). -/
def boltDataOf (env : Env) (inputs : FlangeInputs) : BoltData :=
  (env.boltTable.find? (fun b => decide (b.size = inputs.boltSize))).getD
    (env.boltTable.headD defaultBoltData)

/-- `HYDRAULIC_TENSIONING_DATA.find(t => t.size === size)` (src/App.tsx
line 155); no fallback in the source, hence an `Option`. -/
def tensionDataOf (env : Env) (inputs : FlangeInputs) : Option TensionData :=
  env.tensionTable.find? (fun t => decide (t.size = inputs.boltSize))

/-- `GASKET_RING_TABLE.find(r => dia >= r.min && dia <= r.max) ||
GASKET_RING_TABLE[GASKET_RING_TABLE.length - 1]`: the shared ring lookup of
src/App.tsx line 156 and src/components/Calculator.tsx line 131, whose
fallback is the LAST table entry. -/
def ringLookup (table : List RingRow) (dia : ℚ) : RingRow :=
  (table.find? (fun r => decide (r.min ≤ dia) && decide (dia ≤ r.max))).getD
    (table.getLastD defaultRingRow)

def ringConfigOf (env : Env) (inputs : FlangeInputs) : RingRow :=
  ringLookup env.ringTable inputs.insideDia

/-- src/App.tsx line 158: zero when the inner ring is absent, else the
manual width when nonzero (truthy), else the table minimum. -/
def innerRingWidthOf (env : Env) (inputs : FlangeInputs) : ℚ :=
  if inputs.hasInnerRing then
    (if inputs.innerRingWidthManual = 0 then (ringConfigOf env inputs).irMin
     else inputs.innerRingWidthManual)
  else 0

/-- src/App.tsx line 159 (outer-ring analogue). -/
def outerRingWidthOf (env : Env) (inputs : FlangeInputs) : ℚ :=
  if inputs.hasOuterRing then
    (if inputs.outerRingWidthManual = 0 then (ringConfigOf env inputs).orMin
     else inputs.outerRingWidthManual)
  else 0

/-- `currentInputs.cClearance || 2.5` (src/App.tsx line 160). -/
def effectiveCOf (inputs : FlangeInputs) : ℚ :=
  if inputs.cClearance = 0 then 2.5 else inputs.cClearance

/-- `Math.ceil(boltData.holeSize)` (src/App.tsx line 164). -/
def roundedHoleSizeOf (env : Env) (inputs : FlangeInputs) : ℚ :=
  ((⌈(boltDataOf env inputs).holeSize⌉ : ℤ) : ℚ)

/-- src/App.tsx lines 166-168: the table minimum spacing, raised to the
hydraulic-tensioning minimum when tensioning is enabled and that row exists. -/
def effectiveBMinOf (env : Env) (inputs : FlangeInputs) : ℚ :=
  if inputs.useHydraulicTensioning then
    match tensionDataOf env inputs with
    | some t => max (boltDataOf env inputs).B_min t.B_ten
    | none => (boltDataOf env inputs).B_min
  else (boltDataOf env inputs).B_min

/-- Method 1, minimum-pitch rule (src/App.tsx line 170). -/
def bcdMethod1Of (env : Env) (inputs : FlangeInputs) : ℚ :=
  ((⌈(effectiveBMinOf env inputs * 25.4 * inputs.boltCount) / jsPi⌉ : ℤ) : ℚ)

/-- `boltData.R * 25.4` (src/App.tsx line 171). -/
def radialDistanceOf (env : Env) (inputs : FlangeInputs) : ℚ :=
  (boltDataOf env inputs).R * 25.4

/-- Method 2, hub/radial rule (src/App.tsx line 172). -/
def bcdMethod2Of (env : Env) (inputs : FlangeInputs) : ℚ :=
  ((⌈inputs.insideDia + 2 * inputs.g1 + 2 * radialDistanceOf env inputs⌉ : ℤ) : ℚ)

/-- The BCD-anchored auto seating OD as a function of a provisional BCD
(src/App.tsx line 176); the two-pass structure of the geometry resolver. -/
def autoSeatingODBCD (env : Env) (inputs : FlangeInputs) (baseBCD : ℚ) : ℚ :=
  baseBCD - roundedHoleSizeOf env inputs - 2 * effectiveCOf inputs - 2 * 1.5 -
    2 * outerRingWidthOf env inputs

/-- The shell-anchored auto seating OD (src/App.tsx line 177). -/
def autoSeatingODShell (env : Env) (inputs : FlangeInputs) : ℚ :=
  inputs.insideDia + 2 * inputs.shellGapA + 2 * innerRingWidthOf env inputs +
    2 * inputs.gasketSeatingWidth

/-- src/App.tsx lines 174-179: the provisional BCD is `max(Method1, Method2)`
and the auto seating OD is the larger of the two derivations. -/
def autoSeatingODOf (env : Env) (inputs : FlangeInputs) : ℚ :=
  max (autoSeatingODBCD env inputs (max (bcdMethod1Of env inputs) (bcdMethod2Of env inputs)))
    (autoSeatingODShell env inputs)

/-- src/App.tsx line 180. -/
def autoSeatingIDOf (env : Env) (inputs : FlangeInputs) : ℚ :=
  autoSeatingODOf env inputs - 2 * inputs.gasketSeatingWidth

/-- src/App.tsx line 182: a nonzero manual seating ID wins. -/
def seatingIDOf (env : Env) (inputs : FlangeInputs) : ℚ :=
  if inputs.manualSeatingID ≠ 0 then inputs.manualSeatingID else autoSeatingIDOf env inputs

/-- src/App.tsx line 183: a nonzero manual seating OD wins. -/
def seatingODOf (env : Env) (inputs : FlangeInputs) : ℚ :=
  if inputs.manualSeatingOD ≠ 0 then inputs.manualSeatingOD else autoSeatingODOf env inputs

/-- src/App.tsx line 185. -/
def gasketODOf (env : Env) (inputs : FlangeInputs) : ℚ :=
  seatingODOf env inputs + (if inputs.hasOuterRing then 2 * outerRingWidthOf env inputs else 0)

/-- src/App.tsx line 186. -/
def gasketIDOf (env : Env) (inputs : FlangeInputs) : ℚ :=
  seatingIDOf env inputs - (if inputs.hasInnerRing then 2 * innerRingWidthOf env inputs else 0)

/-- Method 3, gasket/clearance rule (src/App.tsx line 188). -/
def bcdMethod3Of (env : Env) (inputs : FlangeInputs) : ℚ :=
  gasketODOf env inputs + 2 * 1.5 + 2 * effectiveCOf inputs + roundedHoleSizeOf env inputs

/-- `Math.max(bcdMethod1, bcdMethod2, bcdMethod3)` (src/App.tsx line 189). -/
def bcdTemaOf (env : Env) (inputs : FlangeInputs) : ℚ :=
  max (max (bcdMethod1Of env inputs) (bcdMethod2Of env inputs)) (bcdMethod3Of env inputs)

/-- src/App.tsx line 190: report method 1, else 2, else 3. -/
def selectedBcdSourceOf (env : Env) (inputs : FlangeInputs) : ℕ :=
  if bcdTemaOf env inputs = bcdMethod1Of env inputs then 1
  else if bcdTemaOf env inputs = bcdMethod2Of env inputs then 2
  else 3

/-- src/App.tsx line 191: a nonzero actual BCD wins. -/
def finalBCDOf (env : Env) (inputs : FlangeInputs) : ℚ :=
  if inputs.actualBCD ≠ 0 then inputs.actualBCD else bcdTemaOf env inputs

/-- `boltData.E * 25.4` (src/App.tsx line 193). -/
def edgeDistanceOf (env : Env) (inputs : FlangeInputs) : ℚ :=
  (boltDataOf env inputs).E * 25.4

/-- src/App.tsx line 194. -/
def odTemaOf (env : Env) (inputs : FlangeInputs) : ℚ :=
  ((⌈finalBCDOf env inputs + 2 * edgeDistanceOf env inputs⌉ : ℤ) : ℚ)

/-- src/App.tsx line 195: a nonzero actual OD wins. -/
def finalODOf (env : Env) (inputs : FlangeInputs) : ℚ :=
  if inputs.actualOD ≠ 0 then inputs.actualOD else odTemaOf env inputs

/-- `GASKET_TYPES.find(g => g.id === gasketType) || GASKET_TYPES[0]`
(src/App.tsx line 197). -/
def gasketTypeOf (env : Env) (inputs : FlangeInputs) : GasketTypeRow :=
  (env.gasketTypes.find? (fun gt => decide (gt.id = inputs.gasketType))).getD
    (env.gasketTypes.headD defaultGasketTypeRow)

/-- src/App.tsx line 198. -/
def gasketMOf (env : Env) (inputs : FlangeInputs) : ℚ :=
  if inputs.manualM ≠ 0 then inputs.manualM else (gasketTypeOf env inputs).m

/-- src/App.tsx line 199. -/
def gasketYOf (env : Env) (inputs : FlangeInputs) : ℚ :=
  if inputs.manualY ≠ 0 then inputs.manualY else (gasketTypeOf env inputs).y

/-- `GASKET_TYPES.find(g => g.id === passGasketType) || gType`
(src/App.tsx line 201): the fallback is the main gasket type. -/
def passGasketTypeOf (env : Env) (inputs : FlangeInputs) : GasketTypeRow :=
  (env.gasketTypes.find? (fun gt => decide (gt.id = inputs.passGasketType))).getD
    (gasketTypeOf env inputs)

/-- src/App.tsx line 202. -/
def passMOf (env : Env) (inputs : FlangeInputs) : ℚ :=
  if inputs.manualPassM ≠ 0 then inputs.manualPassM else (passGasketTypeOf env inputs).m

/-- src/App.tsx line 203. -/
def passYOf (env : Env) (inputs : FlangeInputs) : ℚ :=
  if inputs.manualPassY ≠ 0 then inputs.manualPassY else (passGasketTypeOf env inputs).y

/-- src/App.tsx line 206. -/
def geometricPitchOf (env : Env) (inputs : FlangeInputs) : ℚ :=
  jsPi * finalBCDOf env inputs / inputs.boltCount

/-- src/App.tsx line 207. -/
def boltSpacingMinOf (env : Env) (inputs : FlangeInputs) : ℚ :=
  effectiveBMinOf env inputs * 25.4

/-- `WHC_MAX_PITCH_TABLE[boltSize] || (2.5 * boltNominalDia + 12)`
(src/App.tsx lines 205, 209-210). -/
def maxBoltSpacingOf (env : Env) (inputs : FlangeInputs) : ℚ :=
  jsOrOpt (env.whcMaxPitch inputs.boltSize) (2.5 * (inputs.boltSize * 25.4) + 12)

/-- Basic gasket width b₀ from the facing-sketch category (src/App.tsx
lines 212-220); the chain of `startsWith` tests, defaulting to N/2. -/
def b0WidthOf (inputs : FlangeInputs) : ℚ :=
  let nWidth := inputs.gasketSeatingWidth
  if List.isPrefixOf ['1', 'a'] inputs.facingSketch ∨
      List.isPrefixOf ['1', 'b'] inputs.facingSketch then nWidth / 2
  else if List.isPrefixOf ['1', 'c'] inputs.facingSketch ∨
      List.isPrefixOf ['1', 'd'] inputs.facingSketch then nWidth / 4
  else if List.isPrefixOf ['2'] inputs.facingSketch then nWidth / 8
  else nWidth / 2

/-- Effective gasket width b (src/App.tsx lines 222-223), with
`Cul = 25.4`; `Math.sqrt` is the environment's `sqrt`. -/
def bWidthOf (env : Env) (inputs : FlangeInputs) : ℚ :=
  if 6 < b0WidthOf inputs then 0.5 * 25.4 * env.sqrt (b0WidthOf inputs / 25.4)
  else b0WidthOf inputs

/-- Effective gasket mean diameter G (src/App.tsx line 224). -/
def gMeanDiaOf (env : Env) (inputs : FlangeInputs) : ℚ :=
  if 6 < b0WidthOf inputs then seatingODOf env inputs - 2 * bWidthOf env inputs
  else (seatingIDOf env inputs + seatingODOf env inputs) / 2

/-- Internal pressure in MPa (src/App.tsx line 226). -/
def pMpaOf (inputs : FlangeInputs) : ℚ :=
  toMpa inputs.designPressure inputs.pressureUnit

/-- Hydrostatic end force H (src/App.tsx line 227). -/
def hForceOf (env : Env) (inputs : FlangeInputs) : ℚ :=
  0.785 * (gMeanDiaOf env inputs) ^ 2 * pMpaOf inputs

/-- Gasket reaction Hp (src/App.tsx line 228). -/
def hpForceOf (env : Env) (inputs : FlangeInputs) : ℚ :=
  2 * pMpaOf inputs * (bWidthOf env inputs * jsPi * gMeanDiaOf env inputs * gasketMOf env inputs
    + inputs.passPartitionWidth * inputs.passPartitionLength * passMOf env inputs)

/-- Operating bolt load Wm1 (src/App.tsx line 229). -/
def wm1Of (env : Env) (inputs : FlangeInputs) : ℚ :=
  hForceOf env inputs + hpForceOf env inputs

/-- Seating bolt load Wm2 (src/App.tsx line 230); `y` values converted from
psi with the 0.00689476 factor. -/
def wm2Of (env : Env) (inputs : FlangeInputs) : ℚ :=
  jsPi * bWidthOf env inputs * gMeanDiaOf env inputs * (gasketYOf env inputs * 0.00689476)
    + inputs.passPartitionWidth * inputs.passPartitionLength * (passYOf env inputs * 0.00689476)

/-- `ASME_BOLT_MATERIALS.find(m => m.id === boltMaterial) ||
ASME_BOLT_MATERIALS[0]` (src/App.tsx line 232). -/
def boltMaterialOf (env : Env) (inputs : FlangeInputs) : MaterialRow :=
  (env.boltMaterials.find? (fun mr => decide (mr.id = inputs.boltMaterial))).getD
    (env.boltMaterials.headD defaultMaterialRow)

/-- `mat.stresses[1] || 0` (src/App.tsx line 233): the curve's second entry,
zero when null or missing. -/
def ambientAllowableStressOf (env : Env) (inputs : FlangeInputs) : ℚ :=
  ((boltMaterialOf env inputs).stresses.getD 1 none).getD 0

/-- src/App.tsx line 234. -/
def designAllowableStressOf (env : Env) (inputs : FlangeInputs) : ℚ :=
  interpolateStress (toCelsius inputs.designTemp inputs.tempUnit) env.tempSteps
    (boltMaterialOf env inputs).stresses

/-- src/App.tsx line 236. -/
def totalBoltAreaOf (env : Env) (inputs : FlangeInputs) : ℚ :=
  (boltDataOf env inputs).tensileArea * inputs.boltCount

/-- `geometricPitch >= boltSpacingMin && geometricPitch <= maxBoltSpacing`
(src/App.tsx line 245). -/
def spacingOkOf (env : Env) (inputs : FlangeInputs) : Bool :=
  decide (boltSpacingMinOf env inputs ≤ geometricPitchOf env inputs) &&
    decide (geometricPitchOf env inputs ≤ maxBoltSpacingOf env inputs)

/-- The full engine `calculateFullResults` (src/App.tsx lines 153-258),
assembled from the per-quantity definitions above.  The two unguarded
required-area divisions of lines 237-238 are modelled with `jsDiv`. -/
def calculate (env : Env) (inputs : FlangeInputs) : CalculationResults :=
  { bcdMethod1 := bcdMethod1Of env inputs
    bcdMethod2 := bcdMethod2Of env inputs
    bcdMethod3 := bcdMethod3Of env inputs
    selectedBcdSource := selectedBcdSourceOf env inputs
    bcdTema := bcdTemaOf env inputs
    odTema := odTemaOf env inputs
    boltSpacingMin := boltSpacingMinOf env inputs
    maxBoltSpacing := maxBoltSpacingOf env inputs
    geometricPitch := geometricPitchOf env inputs
    actualBoltSpacing := maxBoltSpacingOf env inputs
    spacingOk := spacingOkOf env inputs
    radialDistance := radialDistanceOf env inputs
    edgeDistance := edgeDistanceOf env inputs
    effectiveC := effectiveCOf inputs
    shellGapA := inputs.shellGapA
    gasketSeatingWidth := inputs.gasketSeatingWidth
    innerRingWidth := innerRingWidthOf env inputs
    outerRingWidth := outerRingWidthOf env inputs
    gasketID := gasketIDOf env inputs
    seatingID := seatingIDOf env inputs
    seatingOD := seatingODOf env inputs
    gasketOD := gasketODOf env inputs
    finalBCD := finalBCDOf env inputs
    finalOD := finalODOf env inputs
    maxRaisedFace := finalBCDOf env inputs - roundedHoleSizeOf env inputs -
      2 * effectiveCOf inputs - 2 * 1.5 - 2 * outerRingWidthOf env inputs
    boltHoleSize := roundedHoleSizeOf env inputs
    singleBoltArea := (boltDataOf env inputs).tensileArea
    totalBoltArea := totalBoltAreaOf env inputs
    reqAreaOperating := jsDiv (wm1Of env inputs) (designAllowableStressOf env inputs)
    reqAreaSeating := jsDiv (wm2Of env inputs) (ambientAllowableStressOf env inputs)
    requiredBoltArea := jsMax (jsDiv (wm1Of env inputs) (designAllowableStressOf env inputs))
      (jsDiv (wm2Of env inputs) (ambientAllowableStressOf env inputs))
    totalBoltLoadAmbient := totalBoltAreaOf env inputs * ambientAllowableStressOf env inputs
    totalBoltLoadDesign := totalBoltAreaOf env inputs * designAllowableStressOf env inputs
    ambientAllowableStress := ambientAllowableStressOf env inputs
    designAllowableStress := designAllowableStressOf env inputs
    gasketM := gasketMOf env inputs
    gasketY := gasketYOf env inputs
    passM := passMOf env inputs
    passY := passYOf env inputs
    wm1 := wm1Of env inputs
    wm2 := wm2Of env inputs
    hForce := hForceOf env inputs
    hpForce := hpForceOf env inputs
    gMeanDia := gMeanDiaOf env inputs
    bWidth := bWidthOf env inputs
    b0Width := b0WidthOf inputs
    nWidth := inputs.gasketSeatingWidth }

/-- Gasket area Ag (src/App.tsx lines 268-270 and the identical
src/components/BoltLoadTable.tsx lines 49-51): ring area plus the reduced
pass-partition area. -/
def totalAgOf (env : Env) (inputs : FlangeInputs) : ℚ :=
  (jsPi / 4) * ((seatingODOf env inputs) ^ 2 - (seatingIDOf env inputs) ^ 2)
    + (inputs.passPartAreaReduction / 100) * inputs.passPartitionWidth * inputs.passPartitionLength

/-- `results.singleBoltArea * boltCount` (src/App.tsx line 267,
BoltLoadTable.tsx line 54). -/
def totalBoltRootAreaOf (env : Env) (inputs : FlangeInputs) : ℚ :=
  (boltDataOf env inputs).tensileArea * inputs.boltCount

/-- PCC-1 step 1 (src/App.tsx line 272, BoltLoadTable.tsx line 55): guarded
to zero when the total root area is not positive. -/
def sbSelCalcOf (env : Env) (inputs : FlangeInputs) : ℚ :=
  if 0 < totalBoltRootAreaOf env inputs then
    (inputs.sgT * totalAgOf env inputs) / totalBoltRootAreaOf env inputs
  else 0

/-- PCC-1 step 2, `valA = min(sbSelCalc, sbMax || Infinity)` (src/App.tsx
line 273, BoltLoadTable.tsx line 58): a zero `sbMax` means no upper cap. -/
def valAOf (env : Env) (inputs : FlangeInputs) : ℚ :=
  if inputs.sbMax = 0 then sbSelCalcOf env inputs
  else min (sbSelCalcOf env inputs) inputs.sbMax

/-- PCC-1 step 3, `valB = max(valA, sbMin || 0)` (src/App.tsx line 274,
BoltLoadTable.tsx line 59); `sbMin || 0` equals `sbMin` on every input. -/
def valBOf (env : Env) (inputs : FlangeInputs) : ℚ :=
  max (valAOf env inputs) inputs.sbMin

/-- PCC-1 step 4, `valC = min(valB, sfMax || Infinity)` (src/App.tsx
line 275, BoltLoadTable.tsx line 60). -/
def valCOf (env : Env) (inputs : FlangeInputs) : ℚ :=
  if inputs.sfMax = 0 then valBOf env inputs
  else min (valBOf env inputs) inputs.sfMax

/-- Final selected bolt stress, `Math.min(valA, valB, valC)` (src/App.tsx
line 276, BoltLoadTable.tsx line 61). -/
def sbSelFinalOf (env : Env) (inputs : FlangeInputs) : ℚ :=
  min (min (valAOf env inputs) (valBOf env inputs)) (valCOf env inputs)

/-- Step-5 threshold (src/App.tsx line 280, BoltLoadTable.tsx line 78). -/
def step5ThresholdOf (env : Env) (inputs : FlangeInputs) : ℚ :=
  if 0 < totalBoltRootAreaOf env inputs then
    inputs.sgMinS * (totalAgOf env inputs / totalBoltRootAreaOf env inputs)
  else 0

/-- Minimum-seating check (src/App.tsx line 287, BoltLoadTable.tsx line 79),
with the 0.001 slack. -/
def isStep5OkOf (env : Env) (inputs : FlangeInputs) : Bool :=
  decide (step5ThresholdOf env inputs - 0.001 ≤ sbSelFinalOf env inputs)

/-- Step-6 threshold (src/App.tsx lines 281-283, BoltLoadTable.tsx lines
82-84); `g || 1` guards the "fraction of gasket" factor. -/
def step6ThresholdOf (env : Env) (inputs : FlangeInputs) : ℚ :=
  if 0 < totalBoltRootAreaOf env inputs then
    (inputs.sgMinO * totalAgOf env inputs
      + (jsPi / 4) * pMpaOf inputs * (seatingIDOf env inputs) ^ 2)
      / ((if inputs.g = 0 then 1 else inputs.g) * totalBoltRootAreaOf env inputs)
  else 0

/-- Minimum-operating check (src/App.tsx line 288, BoltLoadTable.tsx line 85). -/
def isStep6OkOf (env : Env) (inputs : FlangeInputs) : Bool :=
  decide (step6ThresholdOf env inputs - 0.001 ≤ sbSelFinalOf env inputs)

/-- Step-7 threshold (src/App.tsx line 284, BoltLoadTable.tsx line 88);
`none` models the `Infinity` branch taken when the root area is not
positive. -/
def step7ThresholdOf (env : Env) (inputs : FlangeInputs) : Option ℚ :=
  if 0 < totalBoltRootAreaOf env inputs then
    some (inputs.sgMax * (totalAgOf env inputs / totalBoltRootAreaOf env inputs))
  else none

/-- Gasket upper-bound check (src/App.tsx line 289, BoltLoadTable.tsx
line 89): `sgMax = 0` is the "no limit" sentinel. -/
def isStep7OkOf (env : Env) (inputs : FlangeInputs) : Bool :=
  if inputs.sgMax = 0 then true
  else match step7ThresholdOf env inputs with
    | none => true
    | some v => decide (sbSelFinalOf env inputs ≤ v + 0.001)

/-- Step-8 threshold (src/App.tsx line 285, BoltLoadTable.tsx line 92);
`none` models the `Infinity` branch taken when `phiFMax ≤ 0`. -/
def step8ThresholdOf (inputs : FlangeInputs) : Option ℚ :=
  if 0 < inputs.phiFMax then
    some (inputs.sfMax * ((if inputs.g = 0 then 1 else inputs.g) / inputs.phiFMax))
  else none

/-- Flange upper-bound check (src/App.tsx line 290, BoltLoadTable.tsx
line 93): `phiFMax = 0` is the "no limit" sentinel. -/
def isStep8OkOf (env : Env) (inputs : FlangeInputs) : Bool :=
  if inputs.phiFMax = 0 then true
  else match step8ThresholdOf inputs with
    | none => true
    | some v => decide (sbSelFinalOf env inputs ≤ v + 0.001)

/-- The `pccStatusInfo` memo of src/App.tsx lines 264-296: inactive (and
vacuously safe) unless the PCC-1 check is enabled, otherwise the
conjunction of the four step checks — the selected-stress bounds are NOT
part of this status. -/
structure PccStatus where
  active : Bool
  safe : Bool
deriving DecidableEq

def pccStatusInfo (env : Env) (inputs : FlangeInputs) : PccStatus :=
  if inputs.usePcc1Check then
    ⟨true, isStep5OkOf env inputs && isStep6OkOf env inputs && isStep7OkOf env inputs
      && isStep8OkOf env inputs⟩
  else ⟨false, true⟩

/-- The "Stress Within Limit" badge of src/components/BoltLoadTable.tsx
lines 430-432: the four step checks AND the bound condition
`sbSelFinal ≤ sbMax && sbSelFinal >= sbMin`. -/
def stressWithinLimit (env : Env) (inputs : FlangeInputs) : Bool :=
  decide (sbSelFinalOf env inputs ≤ inputs.sbMax)
    && decide (inputs.sbMin ≤ sbSelFinalOf env inputs)
    && isStep5OkOf env inputs && isStep6OkOf env inputs
    && isStep7OkOf env inputs && isStep8OkOf env inputs

/-- The override-clearing prelude of `performSearch` (src/App.tsx lines
304-311): the search always operates on auto-derived geometry. -/
def clearOverrides (inputs : FlangeInputs) : FlangeInputs :=
  { inputs with
    useManualOverride := false
    actualBCD := 0
    actualOD := 0
    manualSeatingID := 0
    manualSeatingOD := 0 }

/-- `{ ...optimizedTargetInputs, boltSize: size, boltCount: count }`
(src/App.tsx line 326): one candidate grid cell's inputs. -/
def testInputsOf (inputsOpt : FlangeInputs) (pair : ℚ × ℚ) : FlangeInputs :=
  { inputsOpt with boltSize := pair.1, boltCount := pair.2 }

/-- `Math.max(testResults.wm1, testResults.wm2)` (src/App.tsx line 328). -/
def requiredLoadOf (env : Env) (inputs : FlangeInputs) : ℚ :=
  max (wm1Of env inputs) (wm2Of env inputs)

/-- The search's margin test `((avail - req) / req) * 100 >= 0`
(src/App.tsx lines 330-332) with exact JavaScript division semantics. -/
def marginOkJS (req avail : ℚ) : Bool :=
  ((jsDiv (avail - req) req).mul100).ge0

/-- The feasibility test of one grid cell (src/App.tsx line 332):
`margin >= 0 && testResults.spacingOk`. -/
def gridFeasible (env : Env) (inputsOpt : FlangeInputs) (pair : ℚ × ℚ) : Bool :=
  let r := calculate env (testInputsOf inputsOpt pair)
  marginOkJS (max r.wm1 r.wm2) r.totalBoltLoadDesign && r.spacingOk

/-- Candidate sizes (src/App.tsx lines 318-320): the current size when
fixed, else every table size at or above 3/4 inch. -/
def searchSizes (env : Env) (inputsOpt : FlangeInputs) (fixedSize : Bool) : List ℚ :=
  if fixedSize then [inputsOpt.boltSize]
  else (env.boltTable.filter (fun b => decide (0.75 ≤ b.size))).map (fun b => b.size)

/-- The fixed candidate bolt counts (src/App.tsx line 322). -/
def searchCounts : List ℚ :=
  [4, 8, 12, 16, 20, 24, 28, 32, 36, 40, 44, 48, 52, 56, 60, 64, 68, 72, 76, 80]

/-- The (size, count) grid in iteration order: sizes outer, counts inner
(src/App.tsx lines 324-325). -/
def searchGrid (env : Env) (inputsOpt : FlangeInputs) (fixedSize : Bool) : List (ℚ × ℚ) :=
  (searchSizes env inputsOpt fixedSize).flatMap (fun s => searchCounts.map (fun c => (s, c)))

/-- The mutable state of the search loop; `minRequiredLoad = none` models
the initial `Infinity`. -/
structure SearchOutcome where
  found : Bool
  bestSize : ℚ
  bestCount : ℚ
  minRequiredLoad : Option ℚ
deriving DecidableEq

/-- `req < minRequiredLoad`, where the initial best is `Infinity`. -/
def reqLtMin (req : ℚ) (minReq : Option ℚ) : Bool :=
  match minReq with
  | none => true
  | some m => decide (req < m)

/-- One iteration of the search loop (src/App.tsx lines 326-339): a
feasible cell with a strictly smaller required load replaces the best. -/
def searchStep (env : Env) (inputsOpt : FlangeInputs) (st : SearchOutcome) (pair : ℚ × ℚ) :
    SearchOutcome :=
  if gridFeasible env inputsOpt pair then
    (if reqLtMin (requiredLoadOf env (testInputsOf inputsOpt pair)) st.minRequiredLoad then
      ⟨true, pair.1, pair.2, some (requiredLoadOf env (testInputsOf inputsOpt pair))⟩
    else st)
  else st

/-- `performSearch` (src/App.tsx lines 303-341): fold the loop body over
the grid, starting from the cleared inputs' current size/count and
`found = false` (the source binds `clearOverrides inputs` to the local
`optimizedTargetInputs` first; the binding is inlined here). -/
def performSearch (env : Env) (inputs : FlangeInputs) (fixedSize : Bool) : SearchOutcome :=
  (searchGrid env (clearOverrides inputs) fixedSize).foldl (searchStep env (clearOverrides inputs))
    ⟨false, (clearOverrides inputs).boltSize, (clearOverrides inputs).boltCount, none⟩

/-- The state update performed by `performSearch` (src/App.tsx lines
343-361): on success the stored Design Input gets the winning pair and its
manual geometry overrides cleared; on failure (`alert` only) it is left
untouched. -/
def applySearch (env : Env) (inputs : FlangeInputs) (fixedSize : Bool) : FlangeInputs :=
  if (performSearch env inputs fixedSize).found then
    { inputs with
      boltSize := (performSearch env inputs fixedSize).bestSize
      boltCount := (performSearch env inputs fixedSize).bestCount
      useManualOverride := false
      actualBCD := 0
      actualOD := 0
      manualSeatingID := 0
      manualSeatingOD := 0 }
  else inputs

/-- The Calculator panel's own ring lookup (src/components/Calculator.tsx
lines 131-132), `autoIR = ringConfig.irMin`. -/
def calculatorAutoIR (env : Env) (inputs : FlangeInputs) : ℚ :=
  (ringLookup env.ringTable inputs.insideDia).irMin

/-- `currentIR` of src/components/Calculator.tsx line 133. -/
def calculatorCurrentIR (env : Env) (inputs : FlangeInputs) : ℚ :=
  if inputs.hasInnerRing then
    (if inputs.innerRingWidthManual = 0 then calculatorAutoIR env inputs
     else inputs.innerRingWidthManual)
  else 0

/-- Index of the first pair of adjacent temperature steps that brackets
`temp` (the spec's "two bracketing steps t1 ≤ t ≤ t2"). -/
def bracketIdx (temp : ℚ) (steps : List ℚ) : Option ℕ :=
  (List.range (steps.length - 1)).find?
    (fun i => decide (steps.getD i 0 ≤ temp) && decide (temp ≤ steps.getD (i + 1) 0))

/-- The spec's interpolation formula `s1 + (s2 − s1)·(t − t1)/(t2 − t1)` at
bracket index `i`, with `s2` the zero-substituted upper value. -/
def bracketValOrig (temp : ℚ) (steps cleanCurve : List ℚ) (i : ℕ) : ℚ :=
  cleanCurve.getD i 0 + (cleanCurve.getD (i + 1) 0 - cleanCurve.getD i 0) * (temp - steps.getD i 0)
    / (steps.getD (i + 1) 0 - steps.getD i 0)

/-- The amended interpolation formula at bracket index `i`: as
`bracketValOrig`, except that a zero (or missing) upper value `s2` falls
back to the lower value `s1` (the `cleanCurve[i + 1] || s1` of the source). -/
def bracketVal (temp : ℚ) (steps cleanCurve : List ℚ) (i : ℕ) : ℚ :=
  cleanCurve.getD i 0 +
    ((if cleanCurve.getD (i + 1) 0 = 0 then cleanCurve.getD i 0 else cleanCurve.getD (i + 1) 0)
      - cleanCurve.getD i 0) * (temp - steps.getD i 0)
    / (steps.getD (i + 1) 0 - steps.getD i 0)

/-- The spec's reference interpolation (spec §4.2 / §8), stated
independently of the implementation: zero-substitute null entries, clamp
below the first and above the last step, otherwise apply the linear formula
at the first bracketing pair of steps. -/
def interpSpecOrig (temp : ℚ) (steps : List ℚ) (curve : List (Option ℚ)) : ℚ :=
  if temp ≤ steps.headD 0 then (cleanCurveOf curve).headD 0
  else if steps.getLastD 0 ≤ temp then (cleanCurveOf curve).getLastD 0
  else
    match bracketIdx temp steps with
    | some i => bracketValOrig temp steps (cleanCurveOf curve) i
    | none => (cleanCurveOf curve).headD 0

/-- The amended reference interpolation: as `interpSpecOrig` but with the
zero-upper-value fallback of `bracketVal`. -/
def interpSpec (temp : ℚ) (steps : List ℚ) (curve : List (Option ℚ)) : ℚ :=
  if temp ≤ steps.headD 0 then (cleanCurveOf curve).headD 0
  else if steps.getLastD 0 ≤ temp then (cleanCurveOf curve).getLastD 0
  else
    match bracketIdx temp steps with
    | some i => bracketVal temp steps (cleanCurveOf curve) i
    | none => (cleanCurveOf curve).headD 0

/-- A small concrete bolt-table row used by the concrete instances below:
a 1-inch bolt with 2-inch minimum spacing, a 10 mm hole and 100 mm²
tensile area. -/
def sampleBolt : BoltData :=
  { size := 1, B_min := 2, R := 0, E := 0, holeSize := 10, tensileArea := 100 }

/-- A small concrete environment for the concrete instances below. -/
def sampleEnv : Env :=
  { boltTable := [sampleBolt]
    tensionTable := []
    ringTable := [⟨0, 10000, 10, 13⟩]
    boltMaterials := [⟨"M1", [some 100, some 100]⟩]
    gasketTypes := [⟨"G1", 2.5, 10000⟩]
    tempSteps := [0, 100]
    whcMaxPitch := fun _ => none
    sqrt := fun _ => 0 }

/-- A concrete baseline Design Input for the concrete instances below
(a 300 mm shell with a 1-inch × 4 bolt pattern, no rings, no overrides,
PCC-1 disabled). -/
def sampleInputs : FlangeInputs :=
  { itemNo := "E-101"
    partName := "CC FLG"
    boltSize := 1
    boltCount := 4
    insideDia := 300
    g0 := 0
    g1 := 0
    cClearance := 2.5
    shellGapA := 3
    gasketSeatingWidth := 8
    hasInnerRing := false
    hasOuterRing := false
    innerRingWidthManual := 0
    outerRingWidthManual := 0
    useManualOverride := false
    actualBCD := 0
    actualOD := 0
    manualSeatingID := 0
    manualSeatingOD := 0
    manualM := 0
    manualY := 0
    manualPassM := 0
    manualPassY := 0
    designTemp := 50
    tempUnit := "°C"
    designPressure := 1
    pressureUnit := "MPa"
    shellMaterial := "S1"
    jointEfficiency := 1
    corrosionAllowance := 0
    boltMaterial := "M1"
    passPartitionLength := 0
    passPartitionWidth := 0
    gasketType := "G1"
    passGasketType := "G1"
    facingSketch := ['1', 'a']
    useHydraulicTensioning := false
    usePcc1Check := false
    sgT := 0
    sgMinS := 0
    sgMinO := 0
    sgMax := 0
    sbMax := 0
    sbMin := 0
    sfMax := 0
    phiFMax := 0.32
    phiGMax := 1
    g := 0.7
    passPartAreaReduction := 50 }

/-- Inputs for the PCC-1 clamp counterexample: nonzero ordered bounds
`10 ≤ 20`, but a zero seating-stress target makes `Sb_calc = 0`. -/
def pccClampCexInputs : FlangeInputs :=
  { sampleInputs with usePcc1Check := true, sgT := 0, sbMin := 10, sbMax := 20, sfMax := 0 }

/-- Inputs for the amended PCC-1 clamp theorem's witness: a large
seating-stress target puts `Sb_calc` far above `sbMin = 1`. -/
def pccClampWitInputs : FlangeInputs :=
  { sampleInputs with usePcc1Check := true, sgT := 100, sbMin := 1, sbMax := 1000000, sfMax := 0 }

/-- Inputs for the PCC-1 status counterexample: all four step checks pass
(zero thresholds and both no-limit sentinels) while the selected stress `0`
violates the lower bound `sbMin = 5`. -/
def pccStatusCexInputs : FlangeInputs :=
  { sampleInputs with
    usePcc1Check := true
    sgT := 0
    sbMin := 5
    sbMax := 50
    sgMax := 0
    phiFMax := 0
    designPressure := 0 }

/-- Inputs for the amended PCC-1 status theorem's witness: the four checks
pass and the selected stress lies within the bounds. -/
def pccStatusWitInputs : FlangeInputs :=
  { sampleInputs with
    usePcc1Check := true
    sgT := 100
    sbMin := 1
    sbMax := 1000000
    sgMax := 0
    phiFMax := 0
    sfMax := 0 }

/-- An environment whose bolt material has an all-null stress curve, so
both the design and the ambient allowable stress are zero. -/
def zeroStressEnv : Env :=
  { sampleEnv with boltMaterials := [⟨"M1", [none, none]⟩] }

/-- An adversarial environment for the search-feasibility counterexample:
negative allowable stresses and negative gasket factors make the code's
ratio-based margin test pass at pairs where the available load is strictly
below the required load. -/
def negStressEnv : Env :=
  { sampleEnv with
    boltMaterials := [⟨"M1", [some (-100), some (-100)]⟩]
    gasketTypes := [⟨"G1", -100, -1000⟩] }

/-- A benign environment in which the fixed-size search succeeds (the
moderate `y = 1000 psi` keeps the seating load below the available load
from bolt count 16 on). -/
def feasibleEnv : Env :=
  { sampleEnv with gasketTypes := [⟨"G1", 2.5, 1000⟩] }

/-- An environment with zero bolt tensile area: the available load is zero
while the required load is positive, so no grid cell is feasible. -/
def zeroAreaEnv : Env :=
  { sampleEnv with boltTable := [{ sampleBolt with tensileArea := 0 }] }

/-- Inputs exercising every manual override with the ring presence flags
set. -/
def overrideWitInputs : FlangeInputs :=
  { sampleInputs with
    hasInnerRing := true
    hasOuterRing := true
    innerRingWidthManual := 3
    outerRingWidthManual := 4
    actualBCD := 500
    actualOD := 600
    manualSeatingID := 310
    manualSeatingOD := 330
    manualM := 7
    manualY := 800
    manualPassM := 9
    manualPassY := 1100 }

/-- Inputs with a nonzero manual inner-ring width but the inner ring
absent: the computed width is forced to zero. -/
def ringOverrideCexInputs : FlangeInputs :=
  { sampleInputs with hasInnerRing := false, innerRingWidthManual := 5 }

/-- An environment whose single ring-table row covers only shell IDs up to
10 mm. -/
def ringWitEnv : Env :=
  { sampleEnv with ringTable := [⟨0, 10, 7, 9⟩] }

/-- Inputs whose 50 mm shell ID lies within no row of `ringWitEnv`'s ring
table. -/
def ringWitInputs : FlangeInputs :=
  { sampleInputs with insideDia := 50, hasInnerRing := true }

/-- C1 (counterexample): a Design Input with the PCC-1 check enabled,
nonzero bolt-stress bounds `10 ≤ 20`, whose final selected stress is `0`,
strictly below `sbMin` — the claimed clamp `sbMin ≤ Sb_sel` fails because
`Sb_sel = min(A, B, C)` keeps the unclamped `A = min(Sb_calc, sbMax)`. -/
theorem pcc_clamp_cex :
    pccClampCexInputs.usePcc1Check = true ∧
    pccClampCexInputs.sbMin ≠ 0 ∧ pccClampCexInputs.sbMax ≠ 0 ∧
    pccClampCexInputs.sbMin ≤ pccClampCexInputs.sbMax ∧
    sbSelFinalOf sampleEnv pccClampCexInputs < pccClampCexInputs.sbMin := by
  with_unfolding_all decide

/-- C1 (amended): with nonzero bounds `sbMin ≤ sbMax`, the selected stress
never exceeds `sbMax`, whatever the value of `Sb_calc`; the lower bound
`sbMin ≤ Sb_sel` holds under the additional conditions `sbMin ≤ Sb_calc`
and `sfMax` zero or at least `sbMin`. -/
theorem pcc_clamp_amended (env : Env) (inputs : FlangeInputs)
    (hmin : inputs.sbMin ≠ 0) (hmax : inputs.sbMax ≠ 0)
    (hle : inputs.sbMin ≤ inputs.sbMax) :
    sbSelFinalOf env inputs ≤ inputs.sbMax ∧
    (inputs.sbMin ≤ sbSelCalcOf env inputs →
      (inputs.sfMax = 0 ∨ inputs.sbMin ≤ inputs.sfMax) →
      inputs.sbMin ≤ sbSelFinalOf env inputs) := by
  have hA2 : valAOf env inputs ≤ inputs.sbMax := by
    unfold valAOf
    rw [if_neg hmax]
    exact min_le_right _ _
  constructor
  · exact le_trans (le_trans (min_le_left _ _) (min_le_left _ _)) hA2
  · intro hcalc hsf
    have hA1 : inputs.sbMin ≤ valAOf env inputs := by
      unfold valAOf
      rw [if_neg hmax]
      exact le_min hcalc hle
    have hB : inputs.sbMin ≤ valBOf env inputs := le_max_right _ _
    have hC : inputs.sbMin ≤ valCOf env inputs := by
      unfold valCOf
      rcases hsf with h | h
      · rw [if_pos h]
        exact hB
      · by_cases h0 : inputs.sfMax = 0
        · rw [if_pos h0]
          exact hB
        · rw [if_neg h0]
          exact le_min hB h
    exact le_min (le_min hA1 hB) hC

/-- Witness for the amended C1 clamp at a concrete instance where
`Sb_calc ≈ 1973 ≥ sbMin = 1`: the upper bound holds and the extra
lower-bound conditions are met, so both bounds hold. -/
theorem pcc_clamp_amended_witness :
    sbSelFinalOf sampleEnv pccClampWitInputs ≤ pccClampWitInputs.sbMax ∧
      pccClampWitInputs.sbMin ≤ sbSelFinalOf sampleEnv pccClampWitInputs := by
  have h := pcc_clamp_amended sampleEnv pccClampWitInputs
    (by with_unfolding_all decide) (by with_unfolding_all decide)
    (by with_unfolding_all decide)
  exact ⟨h.1, h.2 (by with_unfolding_all decide) (Or.inl (by with_unfolding_all decide))⟩

/-- C3 (counterexample): with the PCC-1 check enabled, the engine's overall
status (`pccStatusInfo.safe`) reports pass while the bound condition
`sbMax ≥ Sb_sel ≥ sbMin` fails (the BoltLoadTable badge, which does include
the bounds, reports fail) — so the engine status is NOT the claimed
conjunction of the four checks and the bounds. -/
theorem pcc_status_cex :
    pccStatusCexInputs.usePcc1Check = true ∧
    (pccStatusInfo sampleEnv pccStatusCexInputs).safe = true ∧
    ¬ pccStatusCexInputs.sbMin ≤ sbSelFinalOf sampleEnv pccStatusCexInputs ∧
    stressWithinLimit sampleEnv pccStatusCexInputs = false := by
  with_unfolding_all decide

/-- C3 (amended): when the PCC-1 check is enabled, the engine's overall
status `pccStatusInfo.safe` equals the conjunction of the four inequality
checks ONLY; the bound condition `sbMax ≥ Sb_sel ≥ sbMin` is enforced only
by the BoltLoadTable "Stress Within Limit" badge, which equals the
conjunction of all four checks plus the bounds. -/
theorem pcc_status_amended (env : Env) (inputs : FlangeInputs)
    (h : inputs.usePcc1Check = true) :
    ((pccStatusInfo env inputs).safe = true ↔
      (isStep5OkOf env inputs = true ∧ isStep6OkOf env inputs = true ∧
        isStep7OkOf env inputs = true ∧ isStep8OkOf env inputs = true)) ∧
    (stressWithinLimit env inputs = true ↔
      (isStep5OkOf env inputs = true ∧ isStep6OkOf env inputs = true ∧
        isStep7OkOf env inputs = true ∧ isStep8OkOf env inputs = true ∧
        sbSelFinalOf env inputs ≤ inputs.sbMax ∧
        inputs.sbMin ≤ sbSelFinalOf env inputs)) := by
  constructor
  · simp [pccStatusInfo, h, Bool.and_eq_true, and_assoc]
  · simp only [stressWithinLimit, Bool.and_eq_true, decide_eq_true_eq]
    tauto

/-- Witness for the amended C3 statement: a concrete enabled instance where
the four checks pass and the selected stress lies within the bounds, so
both the engine status and the badge report pass. -/
theorem pcc_status_amended_witness :
    (pccStatusInfo sampleEnv pccStatusWitInputs).safe = true ∧
      stressWithinLimit sampleEnv pccStatusWitInputs = true := by
  have h := pcc_status_amended sampleEnv pccStatusWitInputs (by with_unfolding_all decide)
  exact ⟨h.1.mpr (by with_unfolding_all decide), h.2.mpr (by with_unfolding_all decide)⟩

/-- C2 (counterexample): a bolt material whose curve interpolates to a zero
design allowable stress.  The operating required area `Wm1 / S_design` is
`+Infinity` in JavaScript — not the claimed zero — because lines 237-238 of
src/App.tsx divide without a zero guard. -/
theorem req_area_cex :
    (calculate zeroStressEnv sampleInputs).designAllowableStress = 0 ∧
    0 < (calculate zeroStressEnv sampleInputs).wm1 ∧
    (calculate zeroStressEnv sampleInputs).reqAreaOperating = JSNum.posInf ∧
    (calculate zeroStressEnv sampleInputs).reqAreaOperating ≠ JSNum.num 0 := by
  with_unfolding_all decide

/-- C2 (amended): `calculate` is total and raises nothing, and the
PCC-1 ratio is guarded to zero when the total bolt root area is not
positive; but the required-area ratios of lines 237-238 are unguarded
JavaScript divisions: with a zero denominator they yield `+Infinity`,
`-Infinity` or `NaN` according to the sign of the numerator, never zero
(for a nonzero numerator). -/
theorem req_area_amended (env : Env) (inputs : FlangeInputs) :
    (¬ 0 < totalBoltRootAreaOf env inputs → sbSelCalcOf env inputs = 0) ∧
    ((calculate env inputs).designAllowableStress = 0 →
      (0 < (calculate env inputs).wm1 →
        (calculate env inputs).reqAreaOperating = JSNum.posInf) ∧
      ((calculate env inputs).wm1 < 0 →
        (calculate env inputs).reqAreaOperating = JSNum.negInf) ∧
      ((calculate env inputs).wm1 = 0 →
        (calculate env inputs).reqAreaOperating = JSNum.nan)) ∧
    ((calculate env inputs).ambientAllowableStress = 0 →
      (0 < (calculate env inputs).wm2 →
        (calculate env inputs).reqAreaSeating = JSNum.posInf)) := by
  refine ⟨?_, ?_, ?_⟩
  · intro h
    unfold sbSelCalcOf
    rw [if_neg h]
  · intro h0
    simp only [calculate] at h0 ⊢
    refine ⟨?_, ?_, ?_⟩
    · intro hw
      unfold jsDiv
      rw [if_pos h0, if_pos hw]
    · intro hw
      unfold jsDiv
      rw [if_pos h0, if_neg (by exact not_lt.mpr (le_of_lt hw)), if_pos hw]
    · intro hw
      unfold jsDiv
      rw [if_pos h0, if_neg (by simp [hw]), if_neg (by simp [hw])]
  · intro h0 hw
    simp only [calculate] at h0 hw ⊢
    unfold jsDiv
    rw [if_pos h0, if_pos hw]

/-- Witness for the amended C2 statement: at `zeroStressEnv` the zero
design stress and positive operating load give `+Infinity`. -/
theorem req_area_amended_witness :
    (calculate zeroStressEnv sampleInputs).reqAreaOperating = JSNum.posInf :=
  ((req_area_amended zeroStressEnv sampleInputs).2.1
    (by with_unfolding_all decide)).1 (by with_unfolding_all decide)

/-- C5: the two-pass bolt-circle-diameter rule.  The auto gasket geometry
is anchored to the provisional BCD `max(Method1, Method2)`; Method 3 is
`gasket_OD + 2·1.5 + 2·clearance + rounded-up hole`; the governing BCD is
the maximum of the three candidates; the reported source is the first
method (in the order 1, 2, 3) whose candidate equals that maximum; and the
final BCD is the nonzero manual override, else the governing value. -/
theorem bcd_two_pass (env : Env) (inputs : FlangeInputs) :
    (calculate env inputs).bcdTema =
      max (max (calculate env inputs).bcdMethod1 (calculate env inputs).bcdMethod2)
        (calculate env inputs).bcdMethod3 ∧
    autoSeatingODOf env inputs =
      max (autoSeatingODBCD env inputs
          (max (bcdMethod1Of env inputs) (bcdMethod2Of env inputs)))
        (autoSeatingODShell env inputs) ∧
    (calculate env inputs).seatingOD =
      (if inputs.manualSeatingOD ≠ 0 then inputs.manualSeatingOD
       else autoSeatingODOf env inputs) ∧
    (calculate env inputs).bcdMethod3 =
      (calculate env inputs).gasketOD + 2 * 1.5 + 2 * (calculate env inputs).effectiveC +
        (calculate env inputs).boltHoleSize ∧
    (calculate env inputs).selectedBcdSource =
      ([(calculate env inputs).bcdMethod1, (calculate env inputs).bcdMethod2,
        (calculate env inputs).bcdMethod3].findIdx
          (fun c => decide (c = (calculate env inputs).bcdTema))) + 1 ∧
    (calculate env inputs).finalBCD =
      (if inputs.actualBCD ≠ 0 then inputs.actualBCD else (calculate env inputs).bcdTema) := by
  refine ⟨rfl, rfl, rfl, rfl, ?_, rfl⟩
  show selectedBcdSourceOf env inputs = _
  simp only [calculate]
  unfold selectedBcdSourceOf
  by_cases h1 : bcdTemaOf env inputs = bcdMethod1Of env inputs
  · have e1 : decide (bcdMethod1Of env inputs = bcdTemaOf env inputs) = true :=
      decide_eq_true h1.symm
    rw [if_pos h1]
    simp [List.findIdx_cons, e1]
  · have e1 : decide (bcdMethod1Of env inputs = bcdTemaOf env inputs) = false :=
      decide_eq_false (fun hh => h1 hh.symm)
    by_cases h2 : bcdTemaOf env inputs = bcdMethod2Of env inputs
    · have e2 : decide (bcdMethod2Of env inputs = bcdTemaOf env inputs) = true :=
        decide_eq_true h2.symm
      rw [if_neg h1, if_pos h2]
      simp [List.findIdx_cons, e1, e2]
    · have e2 : decide (bcdMethod2Of env inputs = bcdTemaOf env inputs) = false :=
        decide_eq_false (fun hh => h2 hh.symm)
      have h3 : bcdTemaOf env inputs = bcdMethod3Of env inputs := by
        rcases max_choice (max (bcdMethod1Of env inputs) (bcdMethod2Of env inputs))
            (bcdMethod3Of env inputs) with h | h
        · rcases max_choice (bcdMethod1Of env inputs) (bcdMethod2Of env inputs) with h' | h'
          · exact absurd ((show bcdTemaOf env inputs = _ from h).trans h') h1
          · exact absurd ((show bcdTemaOf env inputs = _ from h).trans h') h2
        · exact (show bcdTemaOf env inputs = _ from h)
      have e3 : decide (bcdMethod3Of env inputs = bcdTemaOf env inputs) = true :=
        decide_eq_true h3.symm
      rw [if_neg h1, if_neg h2]
      simp [List.findIdx_cons, e1, e2, e3]

/-- C8 (counterexample): a nonzero manual inner-ring width does NOT reach
the result when the inner-ring presence flag is false — the computed width
is forced to zero (src/App.tsx line 158), so "a nonzero override is used
exactly, regardless of the auto-derived value" fails for the ring widths. -/
theorem override_cex :
    ringOverrideCexInputs.innerRingWidthManual = 5 ∧
    (calculate sampleEnv ringOverrideCexInputs).innerRingWidth = 0 ∧
    (calculate sampleEnv ringOverrideCexInputs).innerRingWidth ≠
      ringOverrideCexInputs.innerRingWidthManual := by
  with_unfolding_all decide

/-- C8 (amended): override precedence.  For BCD, OD, seating ID/OD and the
four gasket factors, a nonzero manual value is used exactly and a zero
manual value yields the auto-derived value; for the two ring widths the
same holds provided the corresponding ring presence flag is set, and with
the flag cleared the width is zero regardless of the manual value. -/
theorem override_precedence (env : Env) (inputs : FlangeInputs) :
    (inputs.actualBCD ≠ 0 → (calculate env inputs).finalBCD = inputs.actualBCD) ∧
    (inputs.actualBCD = 0 → (calculate env inputs).finalBCD = (calculate env inputs).bcdTema) ∧
    (inputs.actualOD ≠ 0 → (calculate env inputs).finalOD = inputs.actualOD) ∧
    (inputs.actualOD = 0 → (calculate env inputs).finalOD = (calculate env inputs).odTema) ∧
    (inputs.manualSeatingID ≠ 0 → (calculate env inputs).seatingID = inputs.manualSeatingID) ∧
    (inputs.manualSeatingID = 0 → (calculate env inputs).seatingID = autoSeatingIDOf env inputs) ∧
    (inputs.manualSeatingOD ≠ 0 → (calculate env inputs).seatingOD = inputs.manualSeatingOD) ∧
    (inputs.manualSeatingOD = 0 → (calculate env inputs).seatingOD = autoSeatingODOf env inputs) ∧
    (inputs.manualM ≠ 0 → (calculate env inputs).gasketM = inputs.manualM) ∧
    (inputs.manualM = 0 → (calculate env inputs).gasketM = (gasketTypeOf env inputs).m) ∧
    (inputs.manualY ≠ 0 → (calculate env inputs).gasketY = inputs.manualY) ∧
    (inputs.manualY = 0 → (calculate env inputs).gasketY = (gasketTypeOf env inputs).y) ∧
    (inputs.manualPassM ≠ 0 → (calculate env inputs).passM = inputs.manualPassM) ∧
    (inputs.manualPassM = 0 → (calculate env inputs).passM = (passGasketTypeOf env inputs).m) ∧
    (inputs.manualPassY ≠ 0 → (calculate env inputs).passY = inputs.manualPassY) ∧
    (inputs.manualPassY = 0 → (calculate env inputs).passY = (passGasketTypeOf env inputs).y) ∧
    (inputs.hasInnerRing = true → inputs.innerRingWidthManual ≠ 0 →
      (calculate env inputs).innerRingWidth = inputs.innerRingWidthManual) ∧
    (inputs.hasInnerRing = true → inputs.innerRingWidthManual = 0 →
      (calculate env inputs).innerRingWidth = (ringConfigOf env inputs).irMin) ∧
    (inputs.hasInnerRing = false → (calculate env inputs).innerRingWidth = 0) ∧
    (inputs.hasOuterRing = true → inputs.outerRingWidthManual ≠ 0 →
      (calculate env inputs).outerRingWidth = inputs.outerRingWidthManual) ∧
    (inputs.hasOuterRing = true → inputs.outerRingWidthManual = 0 →
      (calculate env inputs).outerRingWidth = (ringConfigOf env inputs).orMin) ∧
    (inputs.hasOuterRing = false → (calculate env inputs).outerRingWidth = 0) := by
  simp only [calculate]
  refine ⟨?_, ?_, ?_, ?_, ?_, ?_, ?_, ?_, ?_, ?_, ?_, ?_, ?_, ?_, ?_, ?_, ?_, ?_, ?_,
    ?_, ?_, ?_⟩
  · intro h
    unfold finalBCDOf
    rw [if_pos h]
  · intro h
    unfold finalBCDOf
    simp [h]
  · intro h
    unfold finalODOf
    rw [if_pos h]
  · intro h
    unfold finalODOf
    simp [h]
  · intro h
    unfold seatingIDOf
    rw [if_pos h]
  · intro h
    unfold seatingIDOf
    simp [h]
  · intro h
    unfold seatingODOf
    rw [if_pos h]
  · intro h
    unfold seatingODOf
    simp [h]
  · intro h
    unfold gasketMOf
    rw [if_pos h]
  · intro h
    unfold gasketMOf
    simp [h]
  · intro h
    unfold gasketYOf
    rw [if_pos h]
  · intro h
    unfold gasketYOf
    simp [h]
  · intro h
    unfold passMOf
    rw [if_pos h]
  · intro h
    unfold passMOf
    simp [h]
  · intro h
    unfold passYOf
    rw [if_pos h]
  · intro h
    unfold passYOf
    simp [h]
  · intro hr h
    unfold innerRingWidthOf
    simp [hr, h]
  · intro hr h
    unfold innerRingWidthOf
    simp [hr, h]
  · intro hr
    unfold innerRingWidthOf
    simp [hr]
  · intro hr h
    unfold outerRingWidthOf
    simp [hr, h]
  · intro hr h
    unfold outerRingWidthOf
    simp [hr, h]
  · intro hr
    unfold outerRingWidthOf
    simp [hr]

/-- Witness for the amended C8 statement: at `overrideWitInputs` every
override is nonzero and both ring flags are set, and each result field
equals its override exactly. -/
theorem override_precedence_witness :
    (calculate sampleEnv overrideWitInputs).finalBCD = 500 ∧
    (calculate sampleEnv overrideWitInputs).finalOD = 600 ∧
    (calculate sampleEnv overrideWitInputs).seatingID = 310 ∧
    (calculate sampleEnv overrideWitInputs).seatingOD = 330 ∧
    (calculate sampleEnv overrideWitInputs).gasketM = 7 ∧
    (calculate sampleEnv overrideWitInputs).gasketY = 800 ∧
    (calculate sampleEnv overrideWitInputs).passM = 9 ∧
    (calculate sampleEnv overrideWitInputs).passY = 1100 ∧
    (calculate sampleEnv overrideWitInputs).innerRingWidth = 3 ∧
    (calculate sampleEnv overrideWitInputs).outerRingWidth = 4 := by
  have h := override_precedence sampleEnv overrideWitInputs
  obtain ⟨h1, -, h2, -, h3, -, h4, -, h5, -, h6, -, h7, -, h8, -, h9, -, -, h10, -, -⟩ := h
  exact ⟨h1 (by with_unfolding_all decide), h2 (by with_unfolding_all decide),
    h3 (by with_unfolding_all decide), h4 (by with_unfolding_all decide),
    h5 (by with_unfolding_all decide), h6 (by with_unfolding_all decide),
    h7 (by with_unfolding_all decide), h8 (by with_unfolding_all decide),
    h9 (by with_unfolding_all decide) (by with_unfolding_all decide),
    h10 (by with_unfolding_all decide) (by with_unfolding_all decide)⟩

/-- C9: frame effect of a successful search.  Whatever the outcome, the
state update of `performSearch` can only change `boltSize`, `boltCount`,
`useManualOverride`, `actualBCD`, `actualOD`, `manualSeatingID` and
`manualSeatingOD`: every other Design-Input field survives `applySearch`
unchanged — in particular the manual factor overrides `manualM`, `manualY`,
`manualPassM`, `manualPassY` are not cleared — and those four factor
overrides are still present in every candidate-cell input the search
evaluates. -/
theorem search_frame (env : Env) (inputs : FlangeInputs) (fixedSize : Bool) (pair : ℚ × ℚ) :
    (testInputsOf (clearOverrides inputs) pair).manualM = inputs.manualM ∧
    (testInputsOf (clearOverrides inputs) pair).manualY = inputs.manualY ∧
    (testInputsOf (clearOverrides inputs) pair).manualPassM = inputs.manualPassM ∧
    (testInputsOf (clearOverrides inputs) pair).manualPassY = inputs.manualPassY ∧
    (applySearch env inputs fixedSize).itemNo = inputs.itemNo ∧
    (applySearch env inputs fixedSize).partName = inputs.partName ∧
    (applySearch env inputs fixedSize).insideDia = inputs.insideDia ∧
    (applySearch env inputs fixedSize).g0 = inputs.g0 ∧
    (applySearch env inputs fixedSize).g1 = inputs.g1 ∧
    (applySearch env inputs fixedSize).cClearance = inputs.cClearance ∧
    (applySearch env inputs fixedSize).shellGapA = inputs.shellGapA ∧
    (applySearch env inputs fixedSize).gasketSeatingWidth = inputs.gasketSeatingWidth ∧
    (applySearch env inputs fixedSize).hasInnerRing = inputs.hasInnerRing ∧
    (applySearch env inputs fixedSize).hasOuterRing = inputs.hasOuterRing ∧
    (applySearch env inputs fixedSize).innerRingWidthManual = inputs.innerRingWidthManual ∧
    (applySearch env inputs fixedSize).outerRingWidthManual = inputs.outerRingWidthManual ∧
    (applySearch env inputs fixedSize).manualM = inputs.manualM ∧
    (applySearch env inputs fixedSize).manualY = inputs.manualY ∧
    (applySearch env inputs fixedSize).manualPassM = inputs.manualPassM ∧
    (applySearch env inputs fixedSize).manualPassY = inputs.manualPassY ∧
    (applySearch env inputs fixedSize).designTemp = inputs.designTemp ∧
    (applySearch env inputs fixedSize).tempUnit = inputs.tempUnit ∧
    (applySearch env inputs fixedSize).designPressure = inputs.designPressure ∧
    (applySearch env inputs fixedSize).pressureUnit = inputs.pressureUnit ∧
    (applySearch env inputs fixedSize).shellMaterial = inputs.shellMaterial ∧
    (applySearch env inputs fixedSize).jointEfficiency = inputs.jointEfficiency ∧
    (applySearch env inputs fixedSize).corrosionAllowance = inputs.corrosionAllowance ∧
    (applySearch env inputs fixedSize).boltMaterial = inputs.boltMaterial ∧
    (applySearch env inputs fixedSize).passPartitionLength = inputs.passPartitionLength ∧
    (applySearch env inputs fixedSize).passPartitionWidth = inputs.passPartitionWidth ∧
    (applySearch env inputs fixedSize).gasketType = inputs.gasketType ∧
    (applySearch env inputs fixedSize).passGasketType = inputs.passGasketType ∧
    (applySearch env inputs fixedSize).facingSketch = inputs.facingSketch ∧
    (applySearch env inputs fixedSize).useHydraulicTensioning = inputs.useHydraulicTensioning ∧
    (applySearch env inputs fixedSize).usePcc1Check = inputs.usePcc1Check ∧
    (applySearch env inputs fixedSize).sgT = inputs.sgT ∧
    (applySearch env inputs fixedSize).sgMinS = inputs.sgMinS ∧
    (applySearch env inputs fixedSize).sgMinO = inputs.sgMinO ∧
    (applySearch env inputs fixedSize).sgMax = inputs.sgMax ∧
    (applySearch env inputs fixedSize).sbMax = inputs.sbMax ∧
    (applySearch env inputs fixedSize).sbMin = inputs.sbMin ∧
    (applySearch env inputs fixedSize).sfMax = inputs.sfMax ∧
    (applySearch env inputs fixedSize).phiFMax = inputs.phiFMax ∧
    (applySearch env inputs fixedSize).phiGMax = inputs.phiGMax ∧
    (applySearch env inputs fixedSize).g = inputs.g ∧
    (applySearch env inputs fixedSize).passPartAreaReduction = inputs.passPartAreaReduction := by
  unfold applySearch testInputsOf clearOverrides
  split <;> simp

/-- C10: total ring-width lookup.  When the shell inside diameter lies in
no range of the (nonempty) gasket ring-width table, both the engine's
lookup (src/App.tsx line 156) and the Calculator panel's lookup
(src/components/Calculator.tsx line 131) fall back to the LAST table entry,
and `calculate` takes its auto inner-ring width from that entry. -/
theorem ring_fallback (env : Env) (inputs : FlangeInputs)
    (hne : env.ringTable ≠ [])
    (hno : ∀ r ∈ env.ringTable,
      ¬ (r.min ≤ inputs.insideDia ∧ inputs.insideDia ≤ r.max)) :
    ringLookup env.ringTable inputs.insideDia = env.ringTable.getLast hne ∧
    calculatorAutoIR env inputs = (env.ringTable.getLast hne).irMin ∧
    (inputs.hasInnerRing = true → inputs.innerRingWidthManual = 0 →
      (calculate env inputs).innerRingWidth = (env.ringTable.getLast hne).irMin) := by
  have hfind : env.ringTable.find?
      (fun r => decide (r.min ≤ inputs.insideDia) && decide (inputs.insideDia ≤ r.max)) =
        none := by
    rw [List.find?_eq_none]
    intro r hr
    simpa using hno r hr
  have hmain : ringLookup env.ringTable inputs.insideDia = env.ringTable.getLast hne := by
    unfold ringLookup
    rw [hfind]
    simp [List.getLastD_eq_getLast?, List.getLast?_eq_getLast _ hne]
  refine ⟨hmain, ?_, ?_⟩
  · unfold calculatorAutoIR
    rw [hmain]
  · intro hflag hman
    simp only [calculate]
    unfold innerRingWidthOf ringConfigOf
    rw [hmain]
    simp [hflag, hman]

/-- Witness for C10: a 50 mm shell ID outside the single table range
`[0, 10]` picks up that (last) row's minimum inner-ring width 7. -/
theorem ring_fallback_witness :
    (calculate ringWitEnv ringWitInputs).innerRingWidth = 7 := by
  have h := ring_fallback ringWitEnv ringWitInputs
    (by with_unfolding_all decide) (by with_unfolding_all decide)
  exact (h.2.2 (by with_unfolding_all decide) (by with_unfolding_all decide)).trans
    (by with_unfolding_all decide)

/-- The search loop body is the identity on every infeasible cell, so a
fold over a grid of infeasible cells returns its initial state unchanged. -/
theorem foldl_searchStep_noop (env : Env) (inputsOpt : FlangeInputs) :
    ∀ (l : List (ℚ × ℚ)) (st : SearchOutcome),
      (∀ pair ∈ l, gridFeasible env inputsOpt pair = false) →
      l.foldl (searchStep env inputsOpt) st = st
  | [], _, _ => rfl
  | pair :: rest, st, h => by
      rw [List.foldl_cons]
      have hstep : searchStep env inputsOpt st pair = st := by
        unfold searchStep
        rw [if_neg (by simp [h pair (List.mem_cons_self pair rest)])]
      rw [hstep]
      exact foldl_searchStep_noop env inputsOpt rest st
        (fun p hp => h p (List.mem_cons_of_mem pair hp))

/-- C7: when no grid cell is feasible, the search reports failure (a plain
returned flag — `calculate` and the fold are total, so no exception can
arise) and the stored Design Input is left completely unchanged. -/
theorem search_failure_preserves_input (env : Env) (inputs : FlangeInputs) (fixedSize : Bool)
    (h : ∀ pair ∈ searchGrid env (clearOverrides inputs) fixedSize,
      gridFeasible env (clearOverrides inputs) pair = false) :
    (performSearch env inputs fixedSize).found = false ∧
      applySearch env inputs fixedSize = inputs := by
  have hfold : performSearch env inputs fixedSize =
      ⟨false, (clearOverrides inputs).boltSize, (clearOverrides inputs).boltCount, none⟩ := by
    unfold performSearch
    exact foldl_searchStep_noop env (clearOverrides inputs) _ _ h
  constructor
  · rw [hfold]
  · unfold applySearch
    rw [hfold]
    simp

/-- Witness for C7: with zero bolt tensile area the available load is zero
while the required load is positive, so all twenty fixed-size grid cells
are infeasible and the inputs survive untouched. -/
theorem search_failure_preserves_input_witness :
    (performSearch zeroAreaEnv sampleInputs true).found = false ∧
      applySearch zeroAreaEnv sampleInputs true = sampleInputs :=
  search_failure_preserves_input zeroAreaEnv sampleInputs true (by with_unfolding_all decide)

/-- When the required load is nonnegative, the code's ratio-based margin
test implies the intended inequality `required ≤ available`. -/
theorem marginOk_imp_le (req avail : ℚ) (h : marginOkJS req avail = true) (hreq : 0 ≤ req) :
    req ≤ avail := by
  unfold marginOkJS jsDiv at h
  by_cases h0 : req = 0
  · subst h0
    rw [if_pos rfl] at h
    rcases lt_trichotomy (0 : ℚ) (avail - 0) with hlt | heq | hgt
    · linarith
    · rw [if_neg (by rw [← heq]; exact lt_irrefl 0),
        if_neg (by rw [← heq]; exact lt_irrefl 0)] at h
      simp [JSNum.mul100, JSNum.ge0] at h
    · rw [if_neg (by linarith), if_pos (by linarith)] at h
      simp [JSNum.mul100, JSNum.ge0] at h
  · rw [if_neg h0] at h
    simp only [JSNum.mul100, JSNum.ge0, decide_eq_true_eq] at h
    have hpos : 0 < req := lt_of_le_of_ne hreq (Ne.symm h0)
    have hquot : 0 ≤ (avail - req) / req := by linarith
    have : 0 ≤ avail - req := by
      by_contra hneg
      push_neg at hneg
      have : (avail - req) / req < 0 := div_neg_of_neg_of_pos hneg hpos
      linarith
    linarith

/-- Any state reached by the search fold whose `found` flag is set carries
a best pair that passed the grid feasibility test. -/
theorem foldl_searchStep_invariant (env : Env) (inputsOpt : FlangeInputs) :
    ∀ (l : List (ℚ × ℚ)) (st : SearchOutcome),
      (st.found = true → gridFeasible env inputsOpt (st.bestSize, st.bestCount) = true) →
      ((l.foldl (searchStep env inputsOpt) st).found = true →
        gridFeasible env inputsOpt
          ((l.foldl (searchStep env inputsOpt) st).bestSize,
            (l.foldl (searchStep env inputsOpt) st).bestCount) = true)
  | [], _, hst => hst
  | pair :: rest, st, hst => by
      rw [List.foldl_cons]
      apply foldl_searchStep_invariant env inputsOpt rest
      unfold searchStep
      by_cases hf : gridFeasible env inputsOpt pair = true
      · rw [if_pos hf]
        by_cases hlt : reqLtMin (requiredLoadOf env (testInputsOf inputsOpt pair))
            st.minRequiredLoad = true
        · rw [if_pos hlt]
          intro _
          simpa using hf
        · rw [if_neg hlt]
          exact hst
      · rw [if_neg hf]
        exact hst

/-- C6 (counterexample): with adversarial reference tables (negative
allowable stresses and gasket factors) the fixed-size search reports a
found pair at which, re-evaluated by `calculate` with overrides cleared,
the available design load is strictly BELOW the required load: the ratio
test `((avail − req)/req)·100 ≥ 0` passes for a negative required load even
though `avail ≥ req` fails. -/
theorem search_found_feasible_cex :
    (performSearch negStressEnv sampleInputs true).found = true ∧
      (calculate negStressEnv (testInputsOf (clearOverrides sampleInputs)
          ((performSearch negStressEnv sampleInputs true).bestSize,
            (performSearch negStressEnv sampleInputs true).bestCount))).totalBoltLoadDesign <
        max (calculate negStressEnv (testInputsOf (clearOverrides sampleInputs)
            ((performSearch negStressEnv sampleInputs true).bestSize,
              (performSearch negStressEnv sampleInputs true).bestCount))).wm1
          (calculate negStressEnv (testInputsOf (clearOverrides sampleInputs)
            ((performSearch negStressEnv sampleInputs true).bestSize,
              (performSearch negStressEnv sampleInputs true).bestCount))).wm2 := by
  with_unfolding_all decide

/-- C6 (amended): every pair the search reports as found, re-evaluated by
`calculate` with that size/count substituted and the manual geometry
overrides cleared, passes the spacing-bound check and the code's
ratio-based margin test; whenever the required load is nonnegative the
latter gives the spec's `available ≥ required`. -/
theorem search_found_feasible (env : Env) (inputs : FlangeInputs) (fixedSize : Bool)
    (h : (performSearch env inputs fixedSize).found = true) :
    (calculate env (testInputsOf (clearOverrides inputs)
        ((performSearch env inputs fixedSize).bestSize,
          (performSearch env inputs fixedSize).bestCount))).spacingOk = true ∧
    marginOkJS
      (max (calculate env (testInputsOf (clearOverrides inputs)
          ((performSearch env inputs fixedSize).bestSize,
            (performSearch env inputs fixedSize).bestCount))).wm1
        (calculate env (testInputsOf (clearOverrides inputs)
          ((performSearch env inputs fixedSize).bestSize,
            (performSearch env inputs fixedSize).bestCount))).wm2)
      (calculate env (testInputsOf (clearOverrides inputs)
        ((performSearch env inputs fixedSize).bestSize,
          (performSearch env inputs fixedSize).bestCount))).totalBoltLoadDesign = true ∧
    (0 ≤ max (calculate env (testInputsOf (clearOverrides inputs)
          ((performSearch env inputs fixedSize).bestSize,
            (performSearch env inputs fixedSize).bestCount))).wm1
        (calculate env (testInputsOf (clearOverrides inputs)
          ((performSearch env inputs fixedSize).bestSize,
            (performSearch env inputs fixedSize).bestCount))).wm2 →
      max (calculate env (testInputsOf (clearOverrides inputs)
          ((performSearch env inputs fixedSize).bestSize,
            (performSearch env inputs fixedSize).bestCount))).wm1
        (calculate env (testInputsOf (clearOverrides inputs)
          ((performSearch env inputs fixedSize).bestSize,
            (performSearch env inputs fixedSize).bestCount))).wm2 ≤
        (calculate env (testInputsOf (clearOverrides inputs)
          ((performSearch env inputs fixedSize).bestSize,
            (performSearch env inputs fixedSize).bestCount))).totalBoltLoadDesign) := by
  have hfeas : gridFeasible env (clearOverrides inputs)
      ((performSearch env inputs fixedSize).bestSize,
        (performSearch env inputs fixedSize).bestCount) = true := by
    exact foldl_searchStep_invariant env (clearOverrides inputs)
      (searchGrid env (clearOverrides inputs) fixedSize)
      ⟨false, (clearOverrides inputs).boltSize, (clearOverrides inputs).boltCount, none⟩
      (fun hst => nomatch hst) h
  unfold gridFeasible at hfeas
  rw [Bool.and_eq_true] at hfeas
  refine ⟨hfeas.2, hfeas.1, fun hreq => ?_⟩
  exact marginOk_imp_le _ _ hfeas.1 hreq

/-- Witness for the amended C6 statement: in `feasibleEnv` the fixed-size
search finds bolt count 16, whose re-evaluation passes the spacing check
and has `required ≤ available`. -/
theorem search_found_feasible_witness :
    (calculate feasibleEnv (testInputsOf (clearOverrides sampleInputs)
        ((performSearch feasibleEnv sampleInputs true).bestSize,
          (performSearch feasibleEnv sampleInputs true).bestCount))).spacingOk = true ∧
      max (calculate feasibleEnv (testInputsOf (clearOverrides sampleInputs)
          ((performSearch feasibleEnv sampleInputs true).bestSize,
            (performSearch feasibleEnv sampleInputs true).bestCount))).wm1
        (calculate feasibleEnv (testInputsOf (clearOverrides sampleInputs)
          ((performSearch feasibleEnv sampleInputs true).bestSize,
            (performSearch feasibleEnv sampleInputs true).bestCount))).wm2 ≤
        (calculate feasibleEnv (testInputsOf (clearOverrides sampleInputs)
          ((performSearch feasibleEnv sampleInputs true).bestSize,
            (performSearch feasibleEnv sampleInputs true).bestCount))).totalBoltLoadDesign := by
  have h := search_found_feasible feasibleEnv sampleInputs true (by with_unfolding_all decide)
  exact ⟨h.1, h.2.2 (by with_unfolding_all decide)⟩

/-- Unfolding lemma for the spec-side bracket search: on at least two steps
it checks the head pair first, then recurses with shifted indices. -/
theorem bracketIdx_cons (temp t1 t2 : ℚ) (ts : List ℚ) :
    bracketIdx temp (t1 :: t2 :: ts) =
      if t1 ≤ temp ∧ temp ≤ t2 then some 0
      else (bracketIdx temp (t2 :: ts)).map (· + 1) := by
  unfold bracketIdx
  simp only [List.length_cons, Nat.add_sub_cancel, List.range_succ_eq_map]
  by_cases h : t1 ≤ temp ∧ temp ≤ t2
  · rw [if_pos h]
    rw [List.find?_cons_of_pos _ (by simp [h.1, h.2])]
  · rw [if_neg h]
    rw [List.find?_cons_of_neg _ (by simpa using h)]
    rw [List.find?_map]
    have hp : ((fun i => decide ((t1 :: t2 :: ts).getD i 0 ≤ temp) &&
        decide (temp ≤ (t1 :: t2 :: ts).getD (i + 1) 0)) ∘ Nat.succ) =
        (fun i => decide ((t2 :: ts).getD i 0 ≤ temp) &&
          decide (temp ≤ (t2 :: ts).getD (i + 1) 0)) := by
      funext i
      simp [Function.comp_def, List.getD_cons_succ]
    rw [hp]

/-- The implementation's scanning loop agrees pointwise with the spec-side
bracket search evaluated through `bracketVal`, whenever the cleaned curve
is at least as long as the step list. -/
theorem interpLoop_eq (temp : ℚ) :
    ∀ (steps cleanCurve : List ℚ), steps.length ≤ cleanCurve.length →
      interpLoop temp steps cleanCurve =
        (bracketIdx temp steps).map (fun i => bracketVal temp steps cleanCurve i)
  | [], cleanCurve, _ => rfl
  | [t1], cleanCurve, _ => rfl
  | t1 :: t2 :: ts, [], hlen => by
      simp at hlen
  | t1 :: t2 :: ts, s1 :: restC, hlen => by
      rw [bracketIdx_cons]
      by_cases h : t1 ≤ temp ∧ temp ≤ t2
      · rw [if_pos h]
        unfold interpLoop
        rw [if_pos h]
        cases restC <;> simp [bracketVal]
      · rw [if_neg h]
        unfold interpLoop
        rw [if_neg h]
        have hlen' : (t2 :: ts).length ≤ restC.length := by
          simpa using Nat.le_of_succ_le_succ hlen
        rw [interpLoop_eq temp (t2 :: ts) restC hlen']
        rw [Option.map_map]
        cases hbr : bracketIdx temp (t2 :: ts) with
        | none => rfl
        | some i =>
            simp [bracketVal, Function.comp_def, List.getD_cons_succ]

/-- C4 (counterexample): over ascending steps `[0, 100]` and the curve
`[10, null]`, the implementation returns `10` at `t = 50` — the `|| s1`
fallback of src/App.tsx line 58 replaces the zero-substituted upper value —
while the spec's reference formula gives `10 + (0 − 10)·50/100 = 5`. -/
theorem interpolate_spec_cex :
    List.Chain' (· < ·) [(0 : ℚ), 100] ∧
    ([some (10 : ℚ), none] : List (Option ℚ)).length = [(0 : ℚ), 100].length ∧
    interpolateStress 50 [0, 100] [some 10, none] = 10 ∧
    interpSpecOrig 50 [0, 100] [some 10, none] = 5 ∧
    interpolateStress 50 [0, 100] [some 10, none] ≠
      interpSpecOrig 50 [0, 100] [some 10, none] := by
  refine ⟨List.chain'_cons.mpr ⟨by norm_num, List.chain'_singleton _⟩,
    by with_unfolding_all decide, by with_unfolding_all decide,
    by with_unfolding_all decide, by with_unfolding_all decide⟩

/-- C4 (amended): for every temperature and every curve over the ascending
steps (one stress entry per step), `interpolateStress` equals the reference
definition in which `s2` is the zero-substituted upper bracket value when
that value is nonzero and otherwise falls back to `s1` — so interpolation
at an exact step returns that step's value whenever its cleaned value is
nonzero, and clamping below the first and above the last step is as the
spec states. -/
theorem interpolate_refines_spec (temp : ℚ) (steps : List ℚ) (curve : List (Option ℚ))
    (hlen : curve.length = steps.length) (hasc : List.Chain' (· < ·) steps) :
    interpolateStress temp steps curve = interpSpec temp steps curve := by
  unfold interpolateStress interpSpec
  have hlen' : steps.length ≤ (cleanCurveOf curve).length := by
    simp [cleanCurveOf, hlen]
  by_cases h1 : temp ≤ steps.headD 0
  · rw [if_pos h1, if_pos h1]
  · rw [if_neg h1, if_neg h1]
    by_cases h2 : steps.getLastD 0 ≤ temp
    · rw [if_pos h2, if_pos h2]
    · rw [if_neg h2, if_neg h2]
      rw [interpLoop_eq temp steps (cleanCurveOf curve) hlen']
      cases bracketIdx temp steps with
      | none => rfl
      | some i => rfl

/-- Witness for the amended C4 statement at an interior temperature of a
two-step curve with nonzero entries (both sides give `15`). -/
theorem interpolate_refines_spec_witness :
    interpolateStress 25 [0, 100] [some 10, some 30] =
      interpSpec 25 [0, 100] [some 10, some 30] :=
  interpolate_refines_spec 25 [0, 100] [some 10, some 30]
    (by with_unfolding_all decide)
    (List.chain'_cons.mpr ⟨by norm_num, List.chain'_singleton _⟩)
